import Mathlib

/- Verification development for the wg_dart Windows core: the WireGuard
configuration parser and binary builder (wireguard_config_parser.cpp), the
adapter configuration pipeline (wireguard_adapter.cpp), the network
address/route configuration layer (wireguard_network_config.cpp), and the
interface-status observer (network_adapter_status_observer.cpp,
connection_status.cpp).

Strings are modelled as lists of characters; external library and OS calls
(libbase64's base64_decode, ws2tcpip's inet_pton, the wireguard driver entry
points, the iphlpapi table/row calls and notification registration) are
modelled as explicit environments supplying their results.  Machine integers
(WORD, BYTE, DWORD, unsigned long) are natural numbers reduced modulo the
corresponding power of two exactly where the C++ performs a narrowing cast. -/

namespace WgDart

/-! ## Character-level string utilities (wireguard_config_parser.cpp) -/

/-- Whitespace set used by TrimString: find_first_not_of(" \t\r\n"). -/
def isTrimSpace (c : Char) : Bool :=
  c = ' ' || c = '\t' || c = '\r' || c = '\n'

/-- Models WireguardConfigParser::TrimString: drop the leading and trailing
characters drawn from " \t\r\n". -/
def TrimString (s : List Char) : List Char :=
  ((s.dropWhile isTrimSpace).reverse.dropWhile isTrimSpace).reverse

/-- Worker for getlineSplit: accumulates the current item (reversed) and
cuts at each delimiter. -/
def getlineSplitGo (delim : Char) : List Char → List Char → List (List Char)
  | [], acc => [acc.reverse]
  | c :: rest, acc =>
    if c = delim then
      acc.reverse ::
        (match rest with
         | [] => []
         | _ => getlineSplitGo delim rest [])
    else getlineSplitGo delim rest (c :: acc)

/-- Models repeated std::getline(stream, item, delim): the input is cut at
each delimiter; getline reports EOF (and yields nothing) when no characters
remain, so an empty input yields no items and a trailing delimiter does not
produce a final empty item. -/
def getlineSplit (s : List Char) (delim : Char) : List (List Char) :=
  match s with
  | [] => []
  | _ => getlineSplitGo delim s []

/-- Models WireguardConfigParser::SplitString, which is std::getline in a
loop with an explicit delimiter. -/
def SplitString (s : List Char) (delim : Char) : List (List Char) :=
  getlineSplit s delim

/-- Splits at the first occurrence of a character, as std::string::find
followed by the two substr calls; none when the character does not occur. -/
def splitFirst (c : Char) : List Char → Option (List Char × List Char)
  | [] => none
  | x :: xs =>
    if x = c then some ([], xs)
    else
      match splitFirst c xs with
      | none => none
      | some (a, b) => some (x :: a, b)

/-- Splits at the last occurrence of a character, as std::string::rfind
followed by the two substr calls. -/
def splitLast (c : Char) (s : List Char) : Option (List Char × List Char) :=
  match splitFirst c s.reverse with
  | none => none
  | some (a, b) => some (b.reverse, a.reverse)

/-! ## std::stoul on Windows

std::stoul defers to strtoul with base 10: it skips leading blanks, accepts
one optional sign, then consumes the longest run of decimal digits.  No
digits at all raises invalid_argument; a magnitude above ULONG_MAX (unsigned
long is 32 bits on Windows) raises out_of_range; both are caught by the
surrounding try/catch in the C++ and turn into a parse failure, so the model
returns none for them.  Trailing non-digit characters are ignored, and a
leading minus sign negates the value modulo 2^32.  The result is an
unsigned long value in [0, 2^32). -/

/-- Blank set skipped by strtoul (C isspace). -/
def isStrtoulSpace (c : Char) : Bool :=
  c = ' ' || c = '\t' || c = '\n' || c = '\r' || c = '\x0b' || c = '\x0c'

/-- Numeric value of a run of decimal digits. -/
def digitsVal (ds : List Char) : Nat :=
  ds.foldl (fun a c => a * 10 + (c.toNat - '0'.toNat)) 0

/-- Models std::stoul(value) (Windows, base 10) wrapped in the parser's
try/catch: none exactly when the C++ call throws. -/
def stoul (s : List Char) : Option Nat :=
  let cs := s.dropWhile isStrtoulSpace
  let signed : Bool × List Char :=
    match cs with
    | '-' :: rest => (true, rest)
    | '+' :: rest => (false, rest)
    | _ => (false, cs)
  let ds := signed.2.takeWhile Char.isDigit
  if ds.isEmpty then none
  else
    let v := digitsVal ds
    if v > 4294967295 then none
    else some (if signed.1 then (4294967296 - v % 4294967296) % 4294967296 else v)

/-! ## Parsed configuration data model (wireguard_config_parser.h) -/

/-- ADDRESS_FAMILY value AF_INET. -/
def AF_INET : Nat := 2

/-- ADDRESS_FAMILY value AF_INET6. -/
def AF_INET6 : Nat := 23

/-- Models WIREGUARD_ALLOWED_IP: a tagged address (raw bytes) with its
address family and prefix length (Cidr, a BYTE). -/
structure AllowedIP where
  AddressFamily : Nat
  Address : List Nat
  Cidr : Nat
deriving DecidableEq, Repr

/-- Models SOCKADDR_INET as filled in by ParseEndpoint: family tag, raw
address bytes and the port value.  (The stored sin_port is htons(port); the
byte order of the in-memory field is a layout detail not modelled — the
logical port value is kept.) -/
structure Endpoint where
  family : Nat
  addr : List Nat
  port : Nat
deriving DecidableEq, Repr

/-- Models struct ParsedPeer with its in-class initializers; the key buffers
and the endpoint are uninitialized in C++ until their has_ flag is set, so
their defaults here are arbitrary placeholders guarded by the flags. -/
structure ParsedPeer where
  has_public_key : Bool := false
  has_preshared_key : Bool := false
  has_persistent_keepalive : Bool := false
  has_endpoint : Bool := false
  public_key : List Nat := []
  preshared_key : List Nat := []
  persistent_keepalive : Nat := 0
  endpoint : Endpoint := ⟨0, [], 0⟩
  allowed_ips : List AllowedIP := []
deriving DecidableEq, Repr

/-- Models struct ParsedInterface with its in-class initializers. -/
structure ParsedInterface where
  has_private_key : Bool := false
  has_public_key : Bool := false
  has_listen_port : Bool := false
  private_key : List Nat := []
  public_key : List Nat := []
  listen_port : Nat := 0
  addresses : List AllowedIP := []
deriving DecidableEq, Repr

/-- The two member fields of WireguardConfigParser: the accumulated
interface settings and the ordered peer list. -/
structure ParserState where
  interface_ : ParsedInterface
  peers_ : List ParsedPeer
deriving DecidableEq, Repr

/-- The parser state produced by Clear(): default-constructed interface and
an empty peer vector. -/
def clearedState : ParserState := ⟨{}, []⟩

/-- Results of the external decoding routines the parser calls: libbase64's
base64_decode (returning the decoded bytes on success) and ws2tcpip's
inet_pton for AF_INET and AF_INET6 (returning the raw address bytes when the
string is a valid address of that family). -/
structure ParseEnv where
  base64Decode : List Char → Option (List Nat)
  inetPton4 : List Char → Option (List Nat)
  inetPton6 : List Char → Option (List Nat)

namespace WireguardConfigParser

/-- Models WireguardConfigParser::DecodeBase64Key: an empty token fails;
base64_decode must succeed and the decoded size must be exactly
WIREGUARD_KEY_LENGTH (32) bytes. -/
def DecodeBase64Key (env : ParseEnv) (base64_key : List Char) : Option (List Nat) :=
  if base64_key.isEmpty then none
  else
    match env.base64Decode base64_key with
    | none => none
    | some bytes => if bytes.length = 32 then some bytes else none

/-- Models WireguardConfigParser::ParseIPAddress: split at the first '/'
(missing slash fails), parse the CIDR with stoul and narrow it to a BYTE,
then try inet_pton for IPv4 first and IPv6 second. -/
def ParseIPAddress (env : ParseEnv) (ip_str : List Char) : Option AllowedIP :=
  match splitFirst '/' ip_str with
  | none => none
  | some (addr_str, cidr_str) =>
    match stoul cidr_str with
    | none => none
    | some v =>
      let cidr := v % 256
      match env.inetPton4 addr_str with
      | some bytes => some ⟨AF_INET, bytes, cidr⟩
      | none =>
        match env.inetPton6 addr_str with
        | some bytes => some ⟨AF_INET6, bytes, cidr⟩
        | none => none

/-- Models WireguardConfigParser::ParseEndpoint: "[ipv6]:port" when the
string starts with '[' (requiring a ']' directly followed by ':'), otherwise
the string is split at the last ':'; the port is parsed with stoul and
narrowed to a WORD; the address is tried as IPv4 first, IPv6 second. -/
def ParseEndpoint (env : ParseEnv) (endpoint_str : List Char) : Option Endpoint :=
  if endpoint_str.isEmpty then none
  else
    let parts : Option (List Char × List Char) :=
      if endpoint_str.head? = some '[' then
        match splitFirst ']' endpoint_str with
        | none => none
        | some (before, after) =>
          match after with
          | ':' :: port_str => some (before.drop 1, port_str)
          | _ => none
      else
        splitLast ':' endpoint_str
    match parts with
    | none => none
    | some (ip_str, port_str) =>
      match stoul port_str with
      | none => none
      | some v =>
        let port := v % 65536
        match env.inetPton4 ip_str with
        | some bytes => some ⟨AF_INET, bytes, port⟩
        | none =>
          match env.inetPton6 ip_str with
          | some bytes => some ⟨AF_INET6, bytes, port⟩
          | none => none

/-- The loop body of the "Address" branch: each comma-separated item is
trimmed and parsed; successes are appended to iface.addresses as they are
produced (the C++ pushes into the vector in place), and the first failure
returns false with the earlier pushes retained. -/
def parseAddressList (env : ParseEnv) (items : List (List Char))
    (iface : ParsedInterface) : Bool × ParsedInterface :=
  match items with
  | [] => (true, iface)
  | addr_str :: rest =>
    match ParseIPAddress env (TrimString addr_str) with
    | some ip =>
      parseAddressList env rest { iface with addresses := iface.addresses ++ [ip] }
    | none => (false, iface)

/-- The loop body of the "AllowedIPs" branch, identical in structure to the
"Address" branch but pushing into peer.allowed_ips. -/
def parseAllowedIPList (env : ParseEnv) (items : List (List Char))
    (peer : ParsedPeer) : Bool × ParsedPeer :=
  match items with
  | [] => (true, peer)
  | ip_str :: rest =>
    match ParseIPAddress env (TrimString ip_str) with
    | some ip =>
      parseAllowedIPList env rest { peer with allowed_ips := peer.allowed_ips ++ [ip] }
    | none => (false, peer)

/-- Models the ParsedInterface overload of ParseKeyValue: PrivateKey,
PublicKey, ListenPort (stoul narrowed to WORD) and Address; unknown keys are
ignored and succeed. -/
def ParseKeyValueIface (env : ParseEnv) (key value : List Char)
    (iface : ParsedInterface) : Bool × ParsedInterface :=
  if key = "PrivateKey".data then
    match DecodeBase64Key env value with
    | some k => (true, { iface with private_key := k, has_private_key := true })
    | none => (false, iface)
  else if key = "PublicKey".data then
    match DecodeBase64Key env value with
    | some k => (true, { iface with public_key := k, has_public_key := true })
    | none => (false, iface)
  else if key = "ListenPort".data then
    match stoul value with
    | some v => (true, { iface with listen_port := v % 65536, has_listen_port := true })
    | none => (false, iface)
  else if key = "Address".data then
    parseAddressList env (SplitString value ',') iface
  else
    (true, iface)

/-- Models the ParsedPeer overload of ParseKeyValue: PublicKey,
PresharedKey, PersistentKeepalive (stoul narrowed to WORD), Endpoint and
AllowedIPs; unknown keys are ignored and succeed. -/
def ParseKeyValuePeer (env : ParseEnv) (key value : List Char)
    (peer : ParsedPeer) : Bool × ParsedPeer :=
  if key = "PublicKey".data then
    match DecodeBase64Key env value with
    | some k => (true, { peer with public_key := k, has_public_key := true })
    | none => (false, peer)
  else if key = "PresharedKey".data then
    match DecodeBase64Key env value with
    | some k => (true, { peer with preshared_key := k, has_preshared_key := true })
    | none => (false, peer)
  else if key = "PersistentKeepalive".data then
    match stoul value with
    | some v =>
      (true, { peer with persistent_keepalive := v % 65536, has_persistent_keepalive := true })
    | none => (false, peer)
  else if key = "Endpoint".data then
    match ParseEndpoint env value with
    | some e => (true, { peer with endpoint := e, has_endpoint := true })
    | none => (false, peer)
  else if key = "AllowedIPs".data then
    parseAllowedIPList env (SplitString value ',') peer
  else
    (true, peer)

/-- One line of a section body: trim, skip empty lines, skip lines without
'=', otherwise split at the first '=' and trim key and value. -/
def keyValueOfLine (line : List Char) : Option (List Char × List Char) :=
  let l := TrimString line
  if l.isEmpty then none
  else
    match splitFirst '=' l with
    | none => none
    | some (k, v) => some (TrimString k, TrimString v)

/-- Models WireguardConfigParser::ParseInterfaceSection: process each line of
the buffered section content in order, mutating the interface settings in
place; the first failing key aborts with the mutations so far retained. -/
def ParseInterfaceSection (env : ParseEnv) (lines : List (List Char))
    (iface : ParsedInterface) : Bool × ParsedInterface :=
  match lines with
  | [] => (true, iface)
  | line :: rest =>
    match keyValueOfLine line with
    | none => ParseInterfaceSection env rest iface
    | some (key, value) =>
      match ParseKeyValueIface env key value iface with
      | (true, iface') => ParseInterfaceSection env rest iface'
      | (false, iface') => (false, iface')

/-- Models the loop of WireguardConfigParser::ParsePeerSection over a fresh
local ParsedPeer. -/
def parsePeerLines (env : ParseEnv) (lines : List (List Char))
    (peer : ParsedPeer) : Bool × ParsedPeer :=
  match lines with
  | [] => (true, peer)
  | line :: rest =>
    match keyValueOfLine line with
    | none => parsePeerLines env rest peer
    | some (key, value) =>
      match ParseKeyValuePeer env key value peer with
      | (true, peer') => parsePeerLines env rest peer'
      | (false, peer') => (false, peer')

/-- Models WireguardConfigParser::ParsePeerSection: a fresh default
ParsedPeer is filled from the section lines and appended to the peer list
only when every key succeeded; on failure nothing is appended. -/
def ParsePeerSection (env : ParseEnv) (lines : List (List Char)) : Option ParsedPeer :=
  match parsePeerLines env lines {} with
  | (true, peer) => some peer
  | (false, _) => none

/-- The section-dispatch step of Parse: content of a section named
"Interface" updates the interface settings, "Peer" appends a peer, any other
name (the never-dispatched empty name included) is ignored. -/
def processSection (env : ParseEnv) (name : List Char) (content : List Char)
    (st : ParserState) : Bool × ParserState :=
  if name = "Interface".data then
    match ParseInterfaceSection env (getlineSplit content '\n') st.interface_ with
    | (ok, iface) => (ok, { st with interface_ := iface })
  else if name = "Peer".data then
    match ParsePeerSection env (getlineSplit content '\n') with
    | some peer => (true, { st with peers_ := st.peers_ ++ [peer] })
    | none => (false, st)
  else
    (true, st)

/-- The main loop of WireguardConfigParser::Parse: lines are trimmed,
comments and blanks skipped; a "[Name]" line dispatches the buffered content
of the previous section (when a section was open) and opens a new one; other
lines are appended to the open section's buffered content; at end of input
the final open section is dispatched. -/
def parseLines (env : ParseEnv) : List (List Char) → List Char → List Char →
    ParserState → Bool × ParserState
  | [], current_section, section_content, st =>
    if current_section.isEmpty then (true, st)
    else processSection env current_section section_content st
  | line :: rest, current_section, section_content, st =>
    let l := TrimString line
    if l.isEmpty || l.head? = some '#' || l.head? = some ';' then
      parseLines env rest current_section section_content st
    else if l.head? = some '[' && l.getLast? = some ']' then
      let dispatched : Bool × ParserState :=
        if current_section.isEmpty then (true, st)
        else processSection env current_section section_content st
      match dispatched with
      | (false, st') => (false, st')
      | (true, st') => parseLines env rest (l.drop 1).dropLast [] st'
    else
      let section_content' :=
        if section_content.isEmpty then l else section_content ++ '\n' :: l
      parseLines env rest current_section section_content' st

/-- Models WireguardConfigParser::Parse: Clear() resets the stored state
before anything else, so the prior state is discarded unconditionally; then
the line loop runs over the input split as std::getline splits it. -/
def Parse (env : ParseEnv) (config_text : String) (st : ParserState) :
    Bool × ParserState :=
  let _ := st
  parseLines env (getlineSplit config_text.data '\n') [] [] clearedState

/-! ## Size calculation and binary building (wireguard_config_parser.cpp)

The byte counts sizeof(WIREGUARD_INTERFACE), sizeof(WIREGUARD_PEER) and
sizeof(WIREGUARD_ALLOWED_IP) come from the driver's header (not part of this
repository), so they are carried as explicit parameters szInterface, szPeer,
szAllowedIP.  The size accumulator is a DWORD (32-bit unsigned), so every
addition and the static_cast<DWORD> narrowing wrap modulo 2^32. -/

/-- Addition as performed on the DWORD accumulator: the 64-bit sum is
narrowed back to 32 bits on assignment. -/
def dwordAdd (a b : Nat) : Nat :=
  (a + b) % 4294967296

/-- Models WireguardConfigParser::CalculateConfigurationSize: a DWORD
accumulator starts at sizeof(WIREGUARD_INTERFACE) and, per peer, adds
sizeof(WIREGUARD_PEER) and then the static_cast<DWORD> narrowing of
allowed-ip-count times sizeof(WIREGUARD_ALLOWED_IP); every step wraps
modulo 2^32 as the C++ DWORD arithmetic does. -/
def CalculateConfigurationSize (szInterface szPeer szAllowedIP : Nat)
    (peers : List ParsedPeer) : Nat :=
  peers.foldl
    (fun size peer =>
      dwordAdd (dwordAdd size szPeer)
        ((peer.allowed_ips.length * szAllowedIP) % 4294967296))
    (szInterface % 4294967296)

/-- The sequence of fixed-size blocks BuildConfiguration writes through its
cursor: the interface block, then for each peer its peer block immediately
followed by one allowed-IP record per allowed IP. -/
def writtenBlocks (szInterface szPeer szAllowedIP : Nat) (peers : List ParsedPeer) :
    List Nat :=
  szInterface :: (peers.map (fun peer => szPeer :: peer.allowed_ips.map (fun _ => szAllowedIP))).flatten

/-- Models WireguardConfigParser::BuildConfiguration at the granularity of
cursor movement: when the buffer is smaller than the (DWORD-wrapped)
required size it writes nothing and returns 0; otherwise it writes the full
block sequence — the cursor is a 64-bit pointer, so the bytes written (first
component) are the unreduced block total — and returns the pre-computed
wrapped required size (second component: the DWORD return value).  When the
true total reaches 2^32 the two components differ. -/
def BuildConfiguration (szInterface szPeer szAllowedIP : Nat) (st : ParserState)
    (buffer_size : Nat) : Nat × Nat :=
  let required_size := CalculateConfigurationSize szInterface szPeer szAllowedIP st.peers_
  if buffer_size < required_size then (0, 0)
  else ((writtenBlocks szInterface szPeer szAllowedIP st.peers_).sum, required_size)

end WireguardConfigParser

/-! ## Adapter configuration pipeline (wireguard_adapter.cpp) -/

/-- Results of the driver entry points ApplyConfiguration reaches:
WireGuardSetConfiguration and WireGuardSetAdapterState(UP). -/
structure AdapterEnv where
  parseEnv : ParseEnv
  setConfigurationOk : Bool
  setStateUpOk : Bool

/-- The WireguardAdapter fields ApplyConfiguration touches: handle validity
(adapter_handle_ != nullptr), whether the shared library binding is loaded,
and the cached parsed configuration parsed_config_. -/
structure AdapterState where
  valid : Bool
  libLoaded : Bool
  parsed_config : Option ParserState

namespace WireguardAdapter

/-- Models WireguardAdapter::SetConfiguration's guard and driver call: fails
when the handle is invalid or the library unloaded, otherwise reports the
driver's result.  (The config pointer is the data of a non-empty local
vector, hence never null on this path.) -/
def SetConfiguration (env : AdapterEnv) (a : AdapterState) : Bool :=
  a.valid && a.libLoaded && env.setConfigurationOk

/-- Models WireguardAdapter::SetState(WIREGUARD_ADAPTER_STATE_UP): guard on
validity and library load, then the driver's result. -/
def SetStateUp (env : AdapterEnv) (a : AdapterState) : Bool :=
  a.valid && a.libLoaded && env.setStateUpOk

/-- Models WireguardAdapter::ApplyConfiguration: validity check; parse with a
fresh local parser; CalculateConfigurationSize with a zero check; build into
a buffer of exactly that size with a mismatch check; SetConfiguration; cache
the parser into parsed_config_; finally SetState(UP).  Each failure before
the caching step resets parsed_config_; a SetState failure afterwards
returns false with the cache left in place. -/
def ApplyConfiguration (szInterface szPeer szAllowedIP : Nat) (env : AdapterEnv)
    (a : AdapterState) (config_text : String) : Bool × AdapterState :=
  if !(a.valid && a.libLoaded) then (false, a)
  else
    match WireguardConfigParser.Parse env.parseEnv config_text clearedState with
    | (false, _) => (false, { a with parsed_config := none })
    | (true, st) =>
      let config_size :=
        WireguardConfigParser.CalculateConfigurationSize szInterface szPeer szAllowedIP
          st.peers_
      if config_size = 0 then (false, { a with parsed_config := none })
      else
        let actual_size :=
          (WireguardConfigParser.BuildConfiguration szInterface szPeer szAllowedIP st
            config_size).2
        if actual_size = 0 || actual_size ≠ config_size then
          (false, { a with parsed_config := none })
        else if !(SetConfiguration env a) then (false, { a with parsed_config := none })
        else
          let a' := { a with parsed_config := some st }
          if !(SetStateUp env a') then (false, a')
          else (true, a')

end WireguardAdapter

/-! ## Network configuration layer (wireguard_network_config.cpp) -/

/-- Windows error code NO_ERROR. -/
def NO_ERROR : Nat := 0

/-- Windows error code ERROR_NOT_FOUND. -/
def ERROR_NOT_FOUND : Nat := 1168

/-- Windows error code ERROR_OBJECT_ALREADY_EXISTS. -/
def ERROR_OBJECT_ALREADY_EXISTS : Nat := 5010

/-- An entry of the live OS unicast-address or route table, reduced to what
the removal loops inspect: the owning interface LUID and the error code the
corresponding delete call (DeleteUnicastIpAddressEntry /
DeleteIpForwardEntry2) returns for this row. -/
structure TableEntry where
  luid : Nat
  deleteResult : Nat
deriving DecidableEq, Repr

namespace WireguardNetworkConfig

/-- The removal loop shared by RemoveIPAddresses and RemoveRoutes: walk the
enumerated table, and for every row whose InterfaceLuid matches the
configured LUID attempt the deletion; an error other than NO_ERROR and
ERROR_NOT_FOUND clears the success flag but the loop continues.  Returns the
final success flag and the rows a delete call was attempted on, in order. -/
def removeLoop (luid : Nat) : List TableEntry → Bool × List TableEntry
  | [] => (true, [])
  | e :: rest =>
    let r := removeLoop luid rest
    if e.luid = luid then
      (((e.deleteResult = NO_ERROR || e.deleteResult = ERROR_NOT_FOUND) && r.1),
        e :: r.2)
    else r

/-- Models WireguardNetworkConfig::RemoveIPAddresses: GetUnicastIpAddressTable
failing (modelled as none) returns false with no deletions attempted;
otherwise the removal loop runs over the table. -/
def RemoveIPAddresses (luid : Nat) (tableResult : Option (List TableEntry)) :
    Bool × List TableEntry :=
  match tableResult with
  | none => (false, [])
  | some table => removeLoop luid table

/-- Models WireguardNetworkConfig::RemoveRoutes: GetIpForwardTable2 failing
returns false with no deletions attempted; otherwise the same removal loop
runs over the route table. -/
def RemoveRoutes (luid : Nat) (tableResult : Option (List TableEntry)) :
    Bool × List TableEntry :=
  match tableResult with
  | none => (false, [])
  | some table => removeLoop luid table

/-- An entry of the configure loops' input (a WIREGUARD_ALLOWED_IP) together
with the error code the corresponding create call
(CreateUnicastIpAddressEntry / CreateIpForwardEntry2) would return for it. -/
structure InstallEntry where
  AddressFamily : Nat
  createResult : Nat
deriving DecidableEq, Repr

/-- Whether the configure loops recognize the entry's address family. -/
def supportedFamily (e : InstallEntry) : Bool :=
  e.AddressFamily = AF_INET || e.AddressFamily = AF_INET6

/-- The install loop shared by ConfigureIPAddresses and ConfigureRoutes: an
entry of an unsupported family is skipped with a warning (no OS call);
otherwise the create call is attempted, ERROR_OBJECT_ALREADY_EXISTS counts
as success, and any other error returns false immediately without touching
the remaining entries.  Returns the result and the entries an OS create call
was attempted on, in order. -/
def installLoop : List InstallEntry → Bool × List InstallEntry
  | [] => (true, [])
  | e :: rest =>
    if !(supportedFamily e) then installLoop rest
    else if e.createResult ≠ NO_ERROR && e.createResult ≠ ERROR_OBJECT_ALREADY_EXISTS then
      (false, [e])
    else
      let r := installLoop rest
      (r.1, e :: r.2)

/-- Models WireguardNetworkConfig::ConfigureIPAddresses: an empty address
list succeeds outright; otherwise the install loop runs. -/
def ConfigureIPAddresses (addresses : List InstallEntry) : Bool × List InstallEntry :=
  if addresses.isEmpty then (true, []) else installLoop addresses

/-- Models WireguardNetworkConfig::ConfigureRoutes: an empty allowed-IP list
succeeds outright; otherwise the same install loop runs. -/
def ConfigureRoutes (allowed_ips : List InstallEntry) : Bool × List InstallEntry :=
  if allowed_ips.isEmpty then (true, []) else installLoop allowed_ips

end WireguardNetworkConfig

/-! ## Connection status mapping (connection_status.cpp,
network_adapter_status_observer.cpp) -/

/-- The ConnectionStatus enumeration. -/
inductive ConnectionStatus
  | connected
  | disconnected
  | connecting
  | disconnecting
  | unknown
deriving DecidableEq, Repr

/-- The IF_OPER_STATUS values named in the source switches; `other` stands
for any further numeric value the OS could report (the default case). -/
inductive IfOperStatus
  | up
  | down
  | testing
  | unknown
  | dormant
  | notPresent
  | lowerLayerDown
  | other (n : Nat)
deriving DecidableEq, Repr

/-- Models ConnectionStatusToString (connection_status.cpp). -/
def ConnectionStatusToString : ConnectionStatus → String
  | .connected => "connected"
  | .disconnected => "disconnected"
  | .connecting => "connecting"
  | .disconnecting => "disconnecting"
  | .unknown => "unknown"

/-- Models ConnectionStatusFromIfOperStatus (connection_status.cpp): only Up
and Down are distinguished; Testing, Unknown, Dormant, NotPresent,
LowerLayerDown and the default all map to unknown.  (No caller in the
repository uses this function; the observer has its own switch below.) -/
def ConnectionStatusFromIfOperStatus : IfOperStatus → ConnectionStatus
  | .up => .connected
  | .down => .disconnected
  | _ => .unknown

namespace NetworkAdapterStatusObserver

/-- Models NetworkAdapterStatusObserver::GetInterfaceStatus: a GetIfEntry2
failure (modelled as none) yields "unknown"; otherwise the switch over
OperStatus maps Up to connected; Down, Dormant, NotPresent and LowerLayerDown
to disconnected; Testing, Unknown and the default to unknown; each rendered
through ConnectionStatusToString. -/
def GetInterfaceStatus (entry : Option IfOperStatus) : String :=
  match entry with
  | none => ConnectionStatusToString ConnectionStatus.unknown
  | some .up => ConnectionStatusToString ConnectionStatus.connected
  | some .down => ConnectionStatusToString ConnectionStatus.disconnected
  | some .dormant => ConnectionStatusToString ConnectionStatus.disconnected
  | some .notPresent => ConnectionStatusToString ConnectionStatus.disconnected
  | some .lowerLayerDown => ConnectionStatusToString ConnectionStatus.disconnected
  | some .testing => ConnectionStatusToString ConnectionStatus.unknown
  | some .unknown => ConnectionStatusToString ConnectionStatus.unknown
  | some (.other _) => ConnectionStatusToString ConnectionStatus.unknown

end NetworkAdapterStatusObserver

/-! ## Interface-status observer state and lock discipline
(network_adapter_status_observer.cpp)

Each public operation and the callback path is modelled as a state
transition that also records its trace of lock and boundary-crossing events
in source order: mutex acquisition/release, the NotifyIpInterfaceChange
registration (with its outcome), the blocking CancelMibChangeNotify2 call,
the GetIfEntry2 status query, and the delivery of an event to the Flutter
sink.  LUIDs are modelled by their 64-bit Value as a Nat. -/

/-- Events on the observer's lock/boundary trace. -/
inductive ObsEvent
  | acquire
  | release
  | osSubscribe (ok : Bool)
  | osCancel
  | queryStatus
  | sinkNotify
deriving DecidableEq, Repr

/-- The observer fields the monitored-set logic touches: the
monitored_adapters_ vector (in push order) and notifications_registered_.
(The notification HANDLE is non-null exactly when notifications_registered_
is set, so it is represented by that flag.) -/
structure ObserverState where
  monitored : List Nat
  registered : Bool
deriving DecidableEq, Repr

namespace NetworkAdapterStatusObserver

/-- Models NetworkAdapterStatusObserver::StartObserving.  The lock_guard
covers the whole body: the already-monitored check, the
NotifyIpInterfaceChange registration when notifications are not yet
registered (regOk is its outcome; failure returns without adding the id),
the push into monitored_adapters_, and the initial GetInterfaceStatus +
sink notification when a sink is attached — all before the release. -/
def StartObserving (regOk sinkAttached : Bool) (luid : Nat) (s : ObserverState) :
    ObserverState × List ObsEvent :=
  if s.monitored.contains luid then
    (s, [.acquire, .release])
  else if !s.registered && !regOk then
    (s, [.acquire, .osSubscribe false, .release])
  else
    ({ monitored := s.monitored ++ [luid], registered := true },
      [ObsEvent.acquire] ++
        (if !s.registered then [ObsEvent.osSubscribe true] else []) ++
        (if sinkAttached then [ObsEvent.queryStatus, ObsEvent.sinkNotify] else []) ++
        [ObsEvent.release])

/-- Models NetworkAdapterStatusObserver::StopObserving: under the lock the
id is erased (first matching element) and, when the set became empty while
registered, the handle is captured and the flags cleared; the blocking
CancelMibChangeNotify2 runs after the release, only when a handle was
captured. -/
def StopObserving (luid : Nat) (s : ObserverState) : ObserverState × List ObsEvent :=
  if s.monitored.contains luid then
    if (s.monitored.erase luid).isEmpty && s.registered then
      ({ monitored := s.monitored.erase luid, registered := false },
        [.acquire, .release, .osCancel])
    else
      ({ s with monitored := s.monitored.erase luid }, [.acquire, .release])
  else
    (s, [.acquire, .release])

/-- Models NetworkAdapterStatusObserver::StopAllObserving: under the lock the
set is cleared and the handle captured when registered; the blocking cancel
runs after the release, only when a handle was captured. -/
def StopAllObserving (s : ObserverState) : ObserverState × List ObsEvent :=
  if s.registered then
    ({ monitored := [], registered := false }, [.acquire, .release, .osCancel])
  else
    ({ monitored := [], registered := s.registered }, [.acquire, .release])

/-- Models NetworkAdapterStatusObserver::HandleInterfaceChange (the body of
the OS callback): the lock is scoped to the monitored lookup; for a
monitored id, after the release, the live status is queried and the sink
notified when attached.  The observer state is not mutated. -/
def HandleInterfaceChange (sinkAttached : Bool) (luid : Nat) (s : ObserverState) :
    List ObsEvent :=
  if s.monitored.contains luid then
    [ObsEvent.acquire, ObsEvent.release, ObsEvent.queryStatus] ++
      (if sinkAttached then [ObsEvent.sinkNotify] else [])
  else
    [ObsEvent.acquire, ObsEvent.release]

end NetworkAdapterStatusObserver

/-- Whether an event is one of the boundary crossings the lock must not be
held across: the blocking OS calls (subscribe, cancel-and-wait) and the sink
notification. -/
def isBoundaryEvent : ObsEvent → Bool
  | .osSubscribe _ => true
  | .osCancel => true
  | .sinkNotify => true
  | _ => false

/-- Checks a trace for the lock discipline: starting from the given held
state, no boundary-crossing event may occur while the mutex is held. -/
def lockDiscipline : List ObsEvent → Bool → Bool
  | [], _ => true
  | e :: rest, held =>
    match e with
    | .acquire => lockDiscipline rest true
    | .release => lockDiscipline rest false
    | e => (!held || !isBoundaryEvent e) && lockDiscipline rest held

/-- The three public monitored-set operations, for running sequences of
calls against the observer (regOk is the OS outcome of a registration
attempted during a StartObserving, sinkAttached whether a sink is set). -/
inductive ObsOp
  | start (regOk sinkAttached : Bool) (luid : Nat)
  | stop (luid : Nat)
  | stopAll
deriving DecidableEq, Repr

/-- One public call against the observer state, with its event trace. -/
def obsStep (op : ObsOp) (s : ObserverState) : ObserverState × List ObsEvent :=
  match op with
  | .start regOk sinkAttached luid =>
    NetworkAdapterStatusObserver.StartObserving regOk sinkAttached luid s
  | .stop luid => NetworkAdapterStatusObserver.StopObserving luid s
  | .stopAll => NetworkAdapterStatusObserver.StopAllObserving s

/-- The observer state as constructed: no monitored adapters, notifications
not registered. -/
def obsInit : ObserverState := ⟨[], false⟩

/-- The observer state after a sequence of public calls from construction. -/
def obsRun (ops : List ObsOp) : ObserverState :=
  ops.foldl (fun s op => (obsStep op s).1) obsInit

/-- The observer's structural invariant: no duplicate LUID in the monitored
vector, and the notification subscription registered exactly when the vector
is non-empty. -/
def ObsInv (s : ObserverState) : Prop :=
  s.monitored.Nodup ∧ s.registered = !s.monitored.isEmpty

/-- A parse environment in which every external decode fails; used to
instantiate claims at concrete inputs that exercise no external decoder. -/
def trivialParseEnv : ParseEnv := ⟨fun _ => none, fun _ => none, fun _ => none⟩

/-! ## Supporting lemmas -/

/-- Sum of a constant-valued map. -/
lemma sum_map_const {α : Type} (l : List α) (c : Nat) :
    (l.map (fun _ => c)).sum = l.length * c := by
  induction l with
  | nil => simp
  | cons x t ih => simp [ih, Nat.succ_mul]; omega

/-- The foldl of CalculateConfigurationSize, with a generalized DWORD
accumulator, equals the accumulator plus the per-peer size sum, reduced
modulo 2^32. -/
lemma calc_foldl_wrapped (szPeer szAllowedIP : Nat) :
    ∀ (peers : List ParsedPeer) (init : Nat),
      peers.foldl
          (fun size peer =>
            WireguardConfigParser.dwordAdd (WireguardConfigParser.dwordAdd size szPeer)
              ((peer.allowed_ips.length * szAllowedIP) % 4294967296))
          (init % 4294967296)
        = (init + (peers.map
              (fun peer => szPeer + peer.allowed_ips.length * szAllowedIP)).sum)
            % 4294967296 := by
  intro peers
  induction peers with
  | nil => intro init; simp
  | cons p t ih =>
    intro init
    have hstep :
        WireguardConfigParser.dwordAdd (WireguardConfigParser.dwordAdd (init % 4294967296) szPeer)
            ((p.allowed_ips.length * szAllowedIP) % 4294967296)
          = (init + (szPeer + p.allowed_ips.length * szAllowedIP)) % 4294967296 := by
      unfold WireguardConfigParser.dwordAdd
      omega
    rw [List.foldl_cons, hstep, ih]
    simp [List.map_cons, List.sum_cons]
    omega

/-- CalculateConfigurationSize spelled out: the header-plus-sum formula
reduced modulo 2^32 by the DWORD arithmetic. -/
lemma CalculateConfigurationSize_eq (szInterface szPeer szAllowedIP : Nat)
    (peers : List ParsedPeer) :
    WireguardConfigParser.CalculateConfigurationSize szInterface szPeer szAllowedIP peers
      = (szInterface
          + (peers.map (fun peer => szPeer + peer.allowed_ips.length * szAllowedIP)).sum)
          % 4294967296 := by
  unfold WireguardConfigParser.CalculateConfigurationSize
  exact calc_foldl_wrapped szPeer szAllowedIP peers szInterface

/-- The bytes the build cursor advances over equal the unreduced
header-plus-sum formula. -/
lemma writtenBlocks_sum (szInterface szPeer szAllowedIP : Nat)
    (peers : List ParsedPeer) :
    (WireguardConfigParser.writtenBlocks szInterface szPeer szAllowedIP peers).sum
      = szInterface
        + (peers.map (fun peer => szPeer + peer.allowed_ips.length * szAllowedIP)).sum := by
  unfold WireguardConfigParser.writtenBlocks
  induction peers with
  | nil => simp
  | cons p t ih => simp [List.sum_append, sum_map_const] at ih ⊢; omega

/-- Building into a buffer of exactly the calculated (DWORD-wrapped) size
writes the full block sequence and returns that calculated size. -/
lemma build_at_required (szInterface szPeer szAllowedIP : Nat) (st : ParserState) :
    WireguardConfigParser.BuildConfiguration szInterface szPeer szAllowedIP st
        (WireguardConfigParser.CalculateConfigurationSize szInterface szPeer szAllowedIP
          st.peers_)
      = ((WireguardConfigParser.writtenBlocks szInterface szPeer szAllowedIP
            st.peers_).sum,
         WireguardConfigParser.CalculateConfigurationSize szInterface szPeer szAllowedIP
          st.peers_) := by
  unfold WireguardConfigParser.BuildConfiguration
  simp

/-! ## Claim theorems -/

/-- A parsed peer carrying 2^28 allowed-IP entries; with an allowed-IP
record size of 16 bytes its records total exactly 2^32 bytes, so the DWORD
size accumulator wraps. -/
def wrapPeer : ParsedPeer :=
  { allowed_ips := List.replicate 268435456 ⟨AF_INET, [], 0⟩ }

/-- A parsed document (one interface, one wrapping peer) whose true
serialized size exceeds the 32-bit DWORD range. -/
def wrapState : ParserState := ⟨{}, [wrapPeer]⟩

/-- Claim C1 counterexample: with structure sizes 80/136/16 and a document
holding one peer with 2^28 allowed IPs, the true size 80+136+2^32 =
4294967512 wraps in the DWORD accumulator to 216, so a 216-byte buffer
passes the size check, BuildConfiguration writes 4294967512 bytes while
returning 216, and the calculated size does not equal the
header-plus-sum formula — refuting both the
written-equals-returned-equals-calculated and the formula part of the
claim. -/
theorem claim_C1_counterexample :
    WireguardConfigParser.CalculateConfigurationSize 80 136 16 wrapState.peers_ = 216 ∧
    WireguardConfigParser.BuildConfiguration 80 136 16 wrapState 216
      = (4294967512, 216) ∧
    (WireguardConfigParser.BuildConfiguration 80 136 16 wrapState 216).1
      ≠ WireguardConfigParser.CalculateConfigurationSize 80 136 16 wrapState.peers_ ∧
    WireguardConfigParser.CalculateConfigurationSize 80 136 16 wrapState.peers_
      ≠ 80 + (wrapState.peers_.map
          (fun peer => 136 + peer.allowed_ips.length * 16)).sum := by
  have hpeers : wrapState.peers_ = [wrapPeer] := rfl
  have hlen : wrapPeer.allowed_ips.length = 268435456 := by
    show (List.replicate 268435456 (⟨AF_INET, [], 0⟩ : AllowedIP)).length = 268435456
    exact List.length_replicate _ _
  have hformula :
      80 + (wrapState.peers_.map
          (fun peer => 136 + peer.allowed_ips.length * 16)).sum = 4294967512 := by
    rw [hpeers, List.map_cons, List.map_nil, List.sum_cons, List.sum_nil, hlen]
    norm_num
  have hcalc :
      WireguardConfigParser.CalculateConfigurationSize 80 136 16 wrapState.peers_
        = 216 := by
    rw [CalculateConfigurationSize_eq, hpeers, List.map_cons, List.map_nil,
      List.sum_cons, List.sum_nil, hlen]
    norm_num
  have hsum :
      (WireguardConfigParser.writtenBlocks 80 136 16 wrapState.peers_).sum
        = 4294967512 := by
    rw [writtenBlocks_sum, hpeers, List.map_cons, List.map_nil, List.sum_cons,
      List.sum_nil, hlen]
    norm_num
  have hbuild :
      WireguardConfigParser.BuildConfiguration 80 136 16 wrapState 216
        = (4294967512, 216) := by
    unfold WireguardConfigParser.BuildConfiguration
    rw [hcalc, hsum]
    norm_num
  refine ⟨hcalc, hbuild, ?_, ?_⟩
  · rw [hbuild, hcalc]
    decide
  · rw [hcalc, hformula]
    decide

/-- Claim C1 amended: CalculateConfigurationSize returns the
header-plus-per-peer-sum formula reduced modulo 2^32 by its DWORD
arithmetic, and BuildConfiguration compares the buffer against that wrapped
size, writing nothing and returning 0 when the buffer is smaller and
otherwise writing the full unreduced block total while returning the
wrapped size.  Whenever the true size fits a DWORD (formula below 2^32) —
every realistic document — the original claim holds: with a buffer of at
least CalculateConfigurationSize() bytes the builder writes and returns
exactly CalculateConfigurationSize() bytes, which equals the formula, and a
smaller buffer writes nothing and returns 0; only a document whose true
size reaches 2^32 makes written and returned bytes diverge. -/
theorem claim_C1_amended :
    ∀ (szInterface szPeer szAllowedIP : Nat) (st : ParserState) (buffer_size : Nat),
      (WireguardConfigParser.CalculateConfigurationSize szInterface szPeer szAllowedIP
          st.peers_
        = (szInterface
            + (st.peers_.map
                (fun peer => szPeer + peer.allowed_ips.length * szAllowedIP)).sum)
            % 4294967296) ∧
      (WireguardConfigParser.BuildConfiguration szInterface szPeer szAllowedIP st
          buffer_size
        = if buffer_size <
              WireguardConfigParser.CalculateConfigurationSize szInterface szPeer
                szAllowedIP st.peers_ then
            (0, 0)
          else
            (szInterface
              + (st.peers_.map
                  (fun peer => szPeer + peer.allowed_ips.length * szAllowedIP)).sum,
             WireguardConfigParser.CalculateConfigurationSize szInterface szPeer
              szAllowedIP st.peers_)) ∧
      (szInterface
          + (st.peers_.map
              (fun peer => szPeer + peer.allowed_ips.length * szAllowedIP)).sum
          < 4294967296 →
        (WireguardConfigParser.CalculateConfigurationSize szInterface szPeer szAllowedIP
            st.peers_
          = szInterface
            + (st.peers_.map
                (fun peer => szPeer + peer.allowed_ips.length * szAllowedIP)).sum) ∧
        (WireguardConfigParser.BuildConfiguration szInterface szPeer szAllowedIP st
            buffer_size
          = if buffer_size <
                WireguardConfigParser.CalculateConfigurationSize szInterface szPeer
                  szAllowedIP st.peers_ then
              (0, 0)
            else
              (WireguardConfigParser.CalculateConfigurationSize szInterface szPeer
                szAllowedIP st.peers_,
               WireguardConfigParser.CalculateConfigurationSize szInterface szPeer
                szAllowedIP st.peers_))) := by
  intro szInterface szPeer szAllowedIP st buffer_size
  have hcalc := CalculateConfigurationSize_eq szInterface szPeer szAllowedIP st.peers_
  have hbuild :
      WireguardConfigParser.BuildConfiguration szInterface szPeer szAllowedIP st
          buffer_size
        = if buffer_size <
              WireguardConfigParser.CalculateConfigurationSize szInterface szPeer
                szAllowedIP st.peers_ then
            (0, 0)
          else
            (szInterface
              + (st.peers_.map
                  (fun peer => szPeer + peer.allowed_ips.length * szAllowedIP)).sum,
             WireguardConfigParser.CalculateConfigurationSize szInterface szPeer
              szAllowedIP st.peers_) := by
    unfold WireguardConfigParser.BuildConfiguration
    by_cases h :
        buffer_size <
          WireguardConfigParser.CalculateConfigurationSize szInterface szPeer szAllowedIP
            st.peers_
    · simp [h]
    · simp [h, writtenBlocks_sum]
  refine ⟨hcalc, hbuild, ?_⟩
  intro hsmall
  have hid :
      WireguardConfigParser.CalculateConfigurationSize szInterface szPeer szAllowedIP
          st.peers_
        = szInterface
          + (st.peers_.map
              (fun peer => szPeer + peer.allowed_ips.length * szAllowedIP)).sum := by
    rw [hcalc]
    omega
  exact ⟨hid, by rw [hbuild, hid]⟩

/-- Claim C1 witness: applies the no-overflow clause of claim_C1_amended to
the empty document with structure sizes 80/136/24 and an exactly-sized
buffer, discharging the below-2^32 hypothesis by evaluation. -/
theorem claim_C1_witness :
    WireguardConfigParser.CalculateConfigurationSize 80 136 24 clearedState.peers_ = 80 ∧
    WireguardConfigParser.BuildConfiguration 80 136 24 clearedState 80 = (80, 80) := by
  have h := (claim_C1_amended 80 136 24 clearedState 80).2.2 (by decide)
  refine ⟨h.1, ?_⟩
  rw [h.2, h.1]
  decide

/-- Claim C2 counterexample: parsing the document
"[Interface]\nListenPort = 1\nListenPort = x" fails (the second ListenPort
value has no digits), yet the retained interface settings have
has_listen_port set — a field is still marked present after a failed Parse,
contradicting the claim that failure retains no partial document. -/
theorem claim_C2_counterexample :
    (WireguardConfigParser.Parse trivialParseEnv
        "[Interface]\nListenPort = 1\nListenPort = x" clearedState).1 = false ∧
    (WireguardConfigParser.Parse trivialParseEnv
        "[Interface]\nListenPort = 1\nListenPort = x"
        clearedState).2.interface_.has_listen_port = true := by
  constructor <;> rfl

/-- Claim C2 amended: Parse clears all previously stored state at the start
of every call (Clear() is its first statement), so its outcome and retained
state never depend on the parser state before the call; when Parse returns
failure, however, partial state from the failing document itself may remain
(the counterexample exhibits a retained field). -/
theorem claim_C2_amended :
    ∀ (env : ParseEnv) (config_text : String) (s₁ s₂ : ParserState),
      WireguardConfigParser.Parse env config_text s₁
        = WireguardConfigParser.Parse env config_text s₂ := by
  intro env config_text s₁ s₂
  rfl

/-- Claim C7: the observer's status derivation (GetInterfaceStatus) maps the
OS operational state "lower layer down" to the logical status disconnected,
never to unknown, and the mapping is total: every OS operational-state value
(the named values and every other numeric value, via the default case) maps
to exactly one of connected, disconnected, or unknown — the three result
strings being pairwise distinct. -/
theorem claim_C7 :
    NetworkAdapterStatusObserver.GetInterfaceStatus (some IfOperStatus.lowerLayerDown)
        = ConnectionStatusToString ConnectionStatus.disconnected ∧
    NetworkAdapterStatusObserver.GetInterfaceStatus (some IfOperStatus.lowerLayerDown)
        ≠ ConnectionStatusToString ConnectionStatus.unknown ∧
    (∀ st : IfOperStatus,
      NetworkAdapterStatusObserver.GetInterfaceStatus (some st)
          = ConnectionStatusToString ConnectionStatus.connected ∨
      NetworkAdapterStatusObserver.GetInterfaceStatus (some st)
          = ConnectionStatusToString ConnectionStatus.disconnected ∨
      NetworkAdapterStatusObserver.GetInterfaceStatus (some st)
          = ConnectionStatusToString ConnectionStatus.unknown) ∧
    ConnectionStatusToString ConnectionStatus.connected
        ≠ ConnectionStatusToString ConnectionStatus.disconnected ∧
    ConnectionStatusToString ConnectionStatus.connected
        ≠ ConnectionStatusToString ConnectionStatus.unknown ∧
    ConnectionStatusToString ConnectionStatus.disconnected
        ≠ ConnectionStatusToString ConnectionStatus.unknown := by
  refine ⟨rfl, by decide, ?_, by decide, by decide, by decide⟩
  intro st
  cases st <;> simp [NetworkAdapterStatusObserver.GetInterfaceStatus]

/-- A delete call's result counts as success when it is NO_ERROR or
ERROR_NOT_FOUND. -/
def deleteTolerated (e : TableEntry) : Bool :=
  e.deleteResult = NO_ERROR || e.deleteResult = ERROR_NOT_FOUND

/-- The removal loop attempts deletion of exactly the rows whose
InterfaceLuid matches, in table order. -/
lemma removeLoop_attempts (luid : Nat) (table : List TableEntry) :
    (WireguardNetworkConfig.removeLoop luid table).2
      = table.filter (fun e => decide (e.luid = luid)) := by
  induction table with
  | nil => rfl
  | cons e t ih =>
    unfold WireguardNetworkConfig.removeLoop
    by_cases h : e.luid = luid <;> simp [h, ih]

/-- The removal loop succeeds exactly when every matching row's deletion
returned NO_ERROR or ERROR_NOT_FOUND. -/
lemma removeLoop_success (luid : Nat) (table : List TableEntry) :
    (WireguardNetworkConfig.removeLoop luid table).1
      = table.all (fun e => !(decide (e.luid = luid)) || deleteTolerated e) := by
  induction table with
  | nil => rfl
  | cons e t ih =>
    unfold WireguardNetworkConfig.removeLoop
    by_cases h : e.luid = luid <;>
      by_cases h0 : e.deleteResult = NO_ERROR <;>
      by_cases h1 : e.deleteResult = ERROR_NOT_FOUND <;>
      simp [h, h0, h1, ih, deleteTolerated]

/-- Claim C8: RemoveIPAddresses and RemoveRoutes enumerate the live OS
tables and attempt deletion of exactly those rows whose link identifier
equals the configured LUID (rows with a different LUID are never touched); a
not-found deletion counts as success; one failing row does not stop the
remaining attempts (every matching row appears in the attempted list); and
the overall result is failure iff the enumeration failed (the none case) or
some matching row's deletion failed with an error other than NO_ERROR /
ERROR_NOT_FOUND. -/
theorem claim_C8 :
    ∀ (luid : Nat) (table : List TableEntry),
      WireguardNetworkConfig.RemoveIPAddresses luid none = (false, []) ∧
      WireguardNetworkConfig.RemoveRoutes luid none = (false, []) ∧
      (WireguardNetworkConfig.RemoveIPAddresses luid (some table)).2
          = table.filter (fun e => decide (e.luid = luid)) ∧
      (WireguardNetworkConfig.RemoveRoutes luid (some table)).2
          = table.filter (fun e => decide (e.luid = luid)) ∧
      ((WireguardNetworkConfig.RemoveIPAddresses luid (some table)).1
          = table.all (fun e => !(decide (e.luid = luid)) || deleteTolerated e)) ∧
      ((WireguardNetworkConfig.RemoveRoutes luid (some table)).1
          = table.all (fun e => !(decide (e.luid = luid)) || deleteTolerated e)) := by
  intro luid table
  exact ⟨rfl, rfl, removeLoop_attempts luid table, removeLoop_attempts luid table,
    removeLoop_success luid table, removeLoop_success luid table⟩

/-- A create call's result counts as success when it is NO_ERROR or
ERROR_OBJECT_ALREADY_EXISTS. -/
def createTolerated (e : WireguardNetworkConfig.InstallEntry) : Bool :=
  e.createResult = NO_ERROR || e.createResult = ERROR_OBJECT_ALREADY_EXISTS

/-- The install loop equals the configure entry points (an empty list takes
the early-success return, which agrees with the loop on no entries). -/
lemma configure_eq_installLoop (entries : List WireguardNetworkConfig.InstallEntry) :
    WireguardNetworkConfig.ConfigureIPAddresses entries
        = WireguardNetworkConfig.installLoop entries ∧
      WireguardNetworkConfig.ConfigureRoutes entries
        = WireguardNetworkConfig.installLoop entries := by
  cases entries <;>
    simp [WireguardNetworkConfig.ConfigureIPAddresses,
      WireguardNetworkConfig.ConfigureRoutes, WireguardNetworkConfig.installLoop]

/-- The install loop succeeds exactly when every supported-family entry's
create call returned NO_ERROR or ERROR_OBJECT_ALREADY_EXISTS; unsupported
families never influence the result. -/
lemma installLoop_success (entries : List WireguardNetworkConfig.InstallEntry) :
    (WireguardNetworkConfig.installLoop entries).1
      = entries.all
          (fun e => !(WireguardNetworkConfig.supportedFamily e) || createTolerated e) := by
  induction entries with
  | nil => rfl
  | cons e t ih =>
    unfold WireguardNetworkConfig.installLoop
    by_cases hf : WireguardNetworkConfig.supportedFamily e <;>
      by_cases h0 : e.createResult = NO_ERROR <;>
      by_cases h1 : e.createResult = ERROR_OBJECT_ALREADY_EXISTS <;>
      simp [hf, h0, h1, ih, createTolerated]

/-- Every entry the install loop makes an OS call for has a supported
address family. -/
lemma installLoop_attempts_supported
    (entries : List WireguardNetworkConfig.InstallEntry) :
    (WireguardNetworkConfig.installLoop entries).2.all
        WireguardNetworkConfig.supportedFamily = true := by
  induction entries with
  | nil => rfl
  | cons e t ih =>
    unfold WireguardNetworkConfig.installLoop
    by_cases hf : WireguardNetworkConfig.supportedFamily e <;>
      by_cases h0 : e.createResult = NO_ERROR <;>
      by_cases h1 : e.createResult = ERROR_OBJECT_ALREADY_EXISTS <;>
      simp [hf, h0, h1, ih]

/-- When every supported entry of the prefix succeeded and entry e is a
supported entry whose create call reports a real error, the loop stops at e:
it returns false and the attempted calls are the supported prefix entries
followed by e — nothing after e is attempted. -/
lemma installLoop_abort (e : WireguardNetworkConfig.InstallEntry)
    (post : List WireguardNetworkConfig.InstallEntry) :
    ∀ pre : List WireguardNetworkConfig.InstallEntry,
      (∀ x ∈ pre, WireguardNetworkConfig.supportedFamily x = true →
        createTolerated x = true) →
      WireguardNetworkConfig.supportedFamily e = true →
      createTolerated e = false →
      WireguardNetworkConfig.installLoop (pre ++ e :: post)
        = (false, pre.filter WireguardNetworkConfig.supportedFamily ++ [e]) := by
  intro pre
  induction pre with
  | nil =>
    intro _ hf hr
    simp only [createTolerated, Bool.or_eq_false_iff, decide_eq_false_iff_not] at hr
    simp [WireguardNetworkConfig.installLoop, hf, hr.1, hr.2]
  | cons x t ih =>
    intro hpre hf hr
    have ht := ih (fun y hy => hpre y (List.mem_cons_of_mem x hy)) hf hr
    have hx := hpre x (List.mem_cons_self x t)
    unfold WireguardNetworkConfig.installLoop
    by_cases hxf : WireguardNetworkConfig.supportedFamily x
    · have hxr := hx hxf
      by_cases h0 : x.createResult = NO_ERROR <;>
        by_cases h1 : x.createResult = ERROR_OBJECT_ALREADY_EXISTS <;>
        simp [createTolerated, h0, h1] at hxr <;>
        simp [hxf, h0, h1, List.cons_append, ht, List.filter_cons]
    · simp [hxf, List.cons_append, ht, List.filter_cons]

/-- Claim C10: ConfigureIPAddresses and ConfigureRoutes skip, without
reporting failure, every entry whose address family is neither AF_INET nor
AF_INET6 — no OS install call is made for such an entry (every attempted
entry has a supported family) and the operation returns success exactly when
every supported-family entry's create call returned NO_ERROR or
ERROR_OBJECT_ALREADY_EXISTS, regardless of unsupported entries; while a real
OS error on a supported-family entry aborts the loop immediately with
failure, the attempted calls being the supported prefix followed by that
entry and nothing after it. -/
theorem claim_C10 :
    ∀ (entries pre post : List WireguardNetworkConfig.InstallEntry)
      (e : WireguardNetworkConfig.InstallEntry),
      ((WireguardNetworkConfig.ConfigureIPAddresses entries).1
          = entries.all
              (fun x => !(WireguardNetworkConfig.supportedFamily x) || createTolerated x)) ∧
      ((WireguardNetworkConfig.ConfigureRoutes entries).1
          = entries.all
              (fun x => !(WireguardNetworkConfig.supportedFamily x) || createTolerated x)) ∧
      ((WireguardNetworkConfig.ConfigureIPAddresses entries).2.all
          WireguardNetworkConfig.supportedFamily = true) ∧
      ((WireguardNetworkConfig.ConfigureRoutes entries).2.all
          WireguardNetworkConfig.supportedFamily = true) ∧
      ((∀ x ∈ pre, WireguardNetworkConfig.supportedFamily x = true →
          createTolerated x = true) →
        WireguardNetworkConfig.supportedFamily e = true →
        createTolerated e = false →
        WireguardNetworkConfig.ConfigureIPAddresses (pre ++ e :: post)
            = (false, pre.filter WireguardNetworkConfig.supportedFamily ++ [e]) ∧
          WireguardNetworkConfig.ConfigureRoutes (pre ++ e :: post)
            = (false, pre.filter WireguardNetworkConfig.supportedFamily ++ [e])) := by
  intro entries pre post e
  refine ⟨?_, ?_, ?_, ?_, ?_⟩
  · rw [(configure_eq_installLoop entries).1]; exact installLoop_success entries
  · rw [(configure_eq_installLoop entries).2]; exact installLoop_success entries
  · rw [(configure_eq_installLoop entries).1]; exact installLoop_attempts_supported entries
  · rw [(configure_eq_installLoop entries).2]; exact installLoop_attempts_supported entries
  · intro hpre hf hr
    have h := installLoop_abort e post pre hpre hf hr
    exact ⟨by rw [(configure_eq_installLoop _).1]; exact h,
           by rw [(configure_eq_installLoop _).2]; exact h⟩

/-- Claim C10 witness: instantiates claim_C10 at a mixed list — a supported
IPv4 entry that already exists, an unsupported-family entry, and a supported
entry with a real error — discharging the abort-clause hypotheses at that
concrete input. -/
theorem claim_C10_witness :
    WireguardNetworkConfig.ConfigureIPAddresses
        [⟨AF_INET, ERROR_OBJECT_ALREADY_EXISTS⟩, ⟨99, 0⟩, ⟨AF_INET6, 87⟩]
      = (false, [⟨AF_INET, ERROR_OBJECT_ALREADY_EXISTS⟩, ⟨AF_INET6, 87⟩]) := by
  have h :=
    (claim_C10 [] [⟨AF_INET, ERROR_OBJECT_ALREADY_EXISTS⟩, ⟨99, 0⟩]
        [] ⟨AF_INET6, 87⟩).2.2.2.2 (by decide) (by decide) (by decide)
  exact h.1

/-- A list with a member is not empty. -/
lemma isEmpty_false_of_mem {l : List Nat} {a : Nat}
    (h : a ∈ l) : l.isEmpty = false := by
  cases l with
  | nil => simp at h
  | cons x t => rfl

/-- Appending a singleton never yields the empty list. -/
lemma isEmpty_append_singleton (l : List Nat) (a : Nat) :
    (l ++ [a]).isEmpty = false := by
  cases l <;> rfl

/-- Claim C5 counterexample: on the freshly constructed observer with a sink
attached, StartObserving's trace violates the lock discipline — the mutex is
held across the NotifyIpInterfaceChange registration and across the sink
notification, since the lock_guard spans the whole function body. -/
theorem claim_C5_counterexample :
    lockDiscipline
        (NetworkAdapterStatusObserver.StartObserving true true 1 obsInit).2 false
      = false := by
  decide

/-- Claim C5 amended: the mutex is never held across a blocking OS call or
the sink notification in StopObserving, StopAllObserving, or the OS callback
path (HandleInterfaceChange) — these capture state under a short critical
section and perform the blocking cancel / status query / sink delivery after
the release; StartObserving however holds the mutex for its whole body, so
its trace satisfies the discipline exactly when it performs neither the
subscription registration nor the initial sink delivery (the id is already
monitored, or notifications are already registered and no sink is
attached). -/
theorem claim_C5_amended :
    ∀ (s : ObserverState) (luid : Nat) (regOk sinkAttached : Bool),
      lockDiscipline (NetworkAdapterStatusObserver.StopObserving luid s).2 false
          = true ∧
      lockDiscipline (NetworkAdapterStatusObserver.StopAllObserving s).2 false
          = true ∧
      lockDiscipline
          (NetworkAdapterStatusObserver.HandleInterfaceChange sinkAttached luid s)
          false = true ∧
      lockDiscipline
          (NetworkAdapterStatusObserver.StartObserving regOk sinkAttached luid s).2
          false
        = (s.monitored.contains luid || (s.registered && !sinkAttached)) := by
  intro s luid regOk sinkAttached
  refine ⟨?_, ?_, ?_, ?_⟩
  · unfold NetworkAdapterStatusObserver.StopObserving
    split
    · split <;> rfl
    · rfl
  · unfold NetworkAdapterStatusObserver.StopAllObserving
    split <;> rfl
  · unfold NetworkAdapterStatusObserver.HandleInterfaceChange
    split
    · cases sinkAttached <;> rfl
    · rfl
  · unfold NetworkAdapterStatusObserver.StartObserving
    split
    · rename_i hc
      have hm : luid ∈ s.monitored := by simpa using hc
      simp [lockDiscipline, hm]
    · rename_i hc
      have hm : luid ∉ s.monitored := by simpa using hc
      split
      · rename_i hb
        simp only [Bool.and_eq_true, Bool.not_eq_true'] at hb
        simp [lockDiscipline, isBoundaryEvent, hm, hb.1]
      · rename_i hb
        cases hr : s.registered <;> cases sinkAttached <;>
          simp [lockDiscipline, isBoundaryEvent, hm, hr]

/-- The observer invariant is preserved by every public call. -/
lemma obsInv_step (op : ObsOp) (s : ObserverState) (h : ObsInv s) :
    ObsInv (obsStep op s).1 := by
  obtain ⟨hnd, hreg⟩ := h
  cases op with
  | start regOk sinkAttached luid =>
    show ObsInv (NetworkAdapterStatusObserver.StartObserving regOk sinkAttached luid s).1
    unfold NetworkAdapterStatusObserver.StartObserving
    split
    · exact ⟨hnd, hreg⟩
    · rename_i hc
      have hm : luid ∉ s.monitored := by simpa using hc
      split
      · exact ⟨hnd, hreg⟩
      · refine ⟨?_, ?_⟩
        · simp [List.nodup_append, hnd, hm]
        · simp [isEmpty_append_singleton]
  | stop luid =>
    show ObsInv (NetworkAdapterStatusObserver.StopObserving luid s).1
    unfold NetworkAdapterStatusObserver.StopObserving
    split
    · rename_i hc
      have hm : luid ∈ s.monitored := by simpa using hc
      have hr : s.registered = true := by simp [hreg, isEmpty_false_of_mem hm]
      split
      · rename_i he
        simp only [Bool.and_eq_true] at he
        refine ⟨List.Nodup.erase luid hnd, ?_⟩
        simp [he.1]
      · rename_i he
        refine ⟨List.Nodup.erase luid hnd, ?_⟩
        have he2 : (s.monitored.erase luid).isEmpty = false := by
          cases hee : (s.monitored.erase luid).isEmpty
          · rfl
          · exact absurd (by simp [hee, hr]) he
        rw [hr, he2]
        rfl
    · exact ⟨hnd, hreg⟩
  | stopAll =>
    show ObsInv (NetworkAdapterStatusObserver.StopAllObserving s).1
    unfold NetworkAdapterStatusObserver.StopAllObserving
    split
    · exact ⟨List.nodup_nil, rfl⟩
    · rename_i hr
      refine ⟨List.nodup_nil, ?_⟩
      have hr' : s.registered = false := by
        cases hrr : s.registered
        · rfl
        · exact absurd hrr hr
      simp [hr']

/-- Every state reachable by public calls from the fresh observer satisfies
the invariant. -/
lemma obsInv_run (ops : List ObsOp) : ObsInv (obsRun ops) := by
  have main : ∀ (l : List ObsOp) (s : ObserverState), ObsInv s →
      ObsInv (l.foldl (fun s op => (obsStep op s).1) s) := by
    intro l
    induction l with
    | nil => intro s hs; exact hs
    | cons op t ih => intro s hs; exact ih _ (obsInv_step op s hs)
  exact main ops obsInit ⟨List.nodup_nil, rfl⟩

/-- Claim C6: across every sequence of StartObserving / StopObserving /
StopAllObserving calls from the fresh observer, the monitored vector never
holds a LUID twice (it is duplicate-free, so each id occurs at most once —
in particular a second StartObserving for an id leaves exactly one entry);
and from any state satisfying the observer invariant, a step performs a
successful NotifyIpInterfaceChange registration exactly when the monitored
set transitions from empty to non-empty, and performs the
CancelMibChangeNotify2 cancellation exactly when it transitions from
non-empty to empty. -/
theorem claim_C6 :
    (∀ ops : List ObsOp, (obsRun ops).monitored.Nodup) ∧
    (∀ (ops : List ObsOp) (luid : Nat), (obsRun ops).monitored.count luid ≤ 1) ∧
    (∀ (s : ObserverState) (op : ObsOp), ObsInv s →
      ((obsStep op s).2.contains (ObsEvent.osSubscribe true)
          = (s.monitored.isEmpty && !(obsStep op s).1.monitored.isEmpty)) ∧
      ((obsStep op s).2.contains ObsEvent.osCancel
          = (!s.monitored.isEmpty && (obsStep op s).1.monitored.isEmpty))) := by
  refine ⟨fun ops => (obsInv_run ops).1,
    fun ops luid => (List.nodup_iff_count_le_one.mp (obsInv_run ops).1) luid, ?_⟩
  intro s op h
  obtain ⟨hnd, hreg⟩ := h
  cases op with
  | start regOk sinkAttached luid =>
    show (NetworkAdapterStatusObserver.StartObserving regOk sinkAttached luid
          s).2.contains (ObsEvent.osSubscribe true)
        = (s.monitored.isEmpty
            && !(NetworkAdapterStatusObserver.StartObserving regOk sinkAttached luid
                  s).1.monitored.isEmpty) ∧
      (NetworkAdapterStatusObserver.StartObserving regOk sinkAttached luid
          s).2.contains ObsEvent.osCancel
        = (!s.monitored.isEmpty
            && (NetworkAdapterStatusObserver.StartObserving regOk sinkAttached luid
                  s).1.monitored.isEmpty)
    unfold NetworkAdapterStatusObserver.StartObserving
    split
    · simp
    · rename_i hc
      split
      · rename_i hb
        simp only [Bool.and_eq_true, Bool.not_eq_true'] at hb
        have hie : s.monitored.isEmpty = true := by
          rw [hb.1] at hreg; simpa using hreg.symm
        simp [hie]
      · rename_i hb
        cases hr : s.registered
        · have hie : s.monitored.isEmpty = true := by
            rw [hr] at hreg; simpa using hreg.symm
          cases sinkAttached <;> simp [hr, hie, isEmpty_append_singleton]
        · have hie : s.monitored.isEmpty = false := by rw [hreg] at hr; simpa using hr
          cases sinkAttached <;> simp [hr, hie, isEmpty_append_singleton]
  | stop luid =>
    show (NetworkAdapterStatusObserver.StopObserving luid s).2.contains
          (ObsEvent.osSubscribe true)
        = (s.monitored.isEmpty
            && !(NetworkAdapterStatusObserver.StopObserving luid s).1.monitored.isEmpty) ∧
      (NetworkAdapterStatusObserver.StopObserving luid s).2.contains ObsEvent.osCancel
        = (!s.monitored.isEmpty
            && (NetworkAdapterStatusObserver.StopObserving luid s).1.monitored.isEmpty)
    unfold NetworkAdapterStatusObserver.StopObserving
    split
    · rename_i hc
      have hm : luid ∈ s.monitored := by simpa using hc
      have hie := isEmpty_false_of_mem hm
      have hr : s.registered = true := by simp [hreg, hie]
      split
      · rename_i he
        simp only [Bool.and_eq_true] at he
        simp [hie, he.1]
      · rename_i he
        have he2 : (s.monitored.erase luid).isEmpty = false := by
          cases hee : (s.monitored.erase luid).isEmpty
          · rfl
          · exact absurd (by simp [hee, hr]) he
        simp [hie, he2]
    · simp
  | stopAll =>
    show (NetworkAdapterStatusObserver.StopAllObserving s).2.contains
          (ObsEvent.osSubscribe true)
        = (s.monitored.isEmpty
            && !(NetworkAdapterStatusObserver.StopAllObserving s).1.monitored.isEmpty) ∧
      (NetworkAdapterStatusObserver.StopAllObserving s).2.contains ObsEvent.osCancel
        = (!s.monitored.isEmpty
            && (NetworkAdapterStatusObserver.StopAllObserving s).1.monitored.isEmpty)
    unfold NetworkAdapterStatusObserver.StopAllObserving
    split
    · rename_i hr
      have hie : s.monitored.isEmpty = false := by rw [hreg] at hr; simpa using hr
      simp [hie]
    · rename_i hr
      have hr' : s.registered = false := by
        cases hrr : s.registered
        · rfl
        · exact absurd hrr hr
      have hie : s.monitored.isEmpty = true := by
        rw [hr'] at hreg; simpa using hreg.symm
      simp [hie]

/-- Claim C6 witness: instantiates the step clause of claim_C6 at the fresh
observer (whose invariant holds) performing a successful StartObserving — a
transition from the empty to a non-empty monitored set with the subscription
registered. -/
theorem claim_C6_witness :
    (obsStep (ObsOp.start true false 3) obsInit).2.contains (ObsEvent.osSubscribe true)
      = (obsInit.monitored.isEmpty
          && !(obsStep (ObsOp.start true false 3) obsInit).1.monitored.isEmpty) := by
  exact (claim_C6.2.2 obsInit (ObsOp.start true false 3) ⟨List.nodup_nil, rfl⟩).1

/-- Claim C9 counterexample: with a sink attached and LUID 5 already
monitored, StartObserving leaves the state unchanged but delivers nothing to
the sink — its trace contains no sink notification — contradicting the
claim that the current status is re-sent to an attached sink. -/
theorem claim_C9_counterexample :
    (NetworkAdapterStatusObserver.StartObserving true true 5 ⟨[5], true⟩).1
        = ⟨[5], true⟩ ∧
    (NetworkAdapterStatusObserver.StartObserving true true 5
        ⟨[5], true⟩).2.contains ObsEvent.sinkNotify = false := by
  decide

/-- Claim C9 amended: calling StartObserving for a link id that is already
in the monitored set returns immediately after the lookup: the observer
state is unchanged, no OS subscription is attempted, and nothing is sent to
the sink — the current status is not re-sent. -/
theorem claim_C9_amended :
    ∀ (s : ObserverState) (luid : Nat) (regOk sinkAttached : Bool),
      s.monitored.contains luid = true →
      NetworkAdapterStatusObserver.StartObserving regOk sinkAttached luid s
        = (s, [ObsEvent.acquire, ObsEvent.release]) := by
  intro s luid regOk sinkAttached hc
  have hm : luid ∈ s.monitored := by simpa using hc
  unfold NetworkAdapterStatusObserver.StartObserving
  split
  · rfl
  · rename_i hn
    exact absurd hc hn

/-- Claim C9 witness: applies claim_C9_amended to an observer already
monitoring LUID 7, with the hypothesis discharged by evaluation. -/
theorem claim_C9_witness :
    NetworkAdapterStatusObserver.StartObserving true true 7 ⟨[7], true⟩
      = (⟨[7], true⟩, [ObsEvent.acquire, ObsEvent.release]) := by
  exact claim_C9_amended ⟨[7], true⟩ 7 true true (by decide)

/-- Claim C3 counterexample: with a valid adapter, loaded library, a
configuration text that parses (the empty document), a driver that accepts
SetConfiguration but fails SetState(UP), ApplyConfiguration returns failure
while the parsed configuration stays cached on the adapter — the fourth
stage's failure does not discard the cache, contradicting the claim.  (The
concrete structure sizes 80/136/24 stand in for the driver header's sizeof
values.) -/
theorem claim_C3_counterexample :
    (WireguardAdapter.ApplyConfiguration 80 136 24 ⟨trivialParseEnv, true, false⟩
        ⟨true, true, none⟩ "").1 = false ∧
    (WireguardAdapter.ApplyConfiguration 80 136 24 ⟨trivialParseEnv, true, false⟩
        ⟨true, true, none⟩ "").2.parsed_config.isSome = true := by
  constructor <;> rfl

/-- Claim C3 amended: ApplyConfiguration runs parse, then size/build, then
SetConfiguration, then SetState(up); a validity failure leaves the adapter
untouched; a parse, size, build or SetConfiguration failure returns failure
with the cached parsed configuration discarded; on SetConfiguration success
the parsed document is cached, and a subsequent SetState(up) failure returns
failure with the document still cached — only the first three stages discard
the cache, not the final one. -/
theorem claim_C3_amended :
    ∀ (szInterface szPeer szAllowedIP : Nat) (env : AdapterEnv) (a : AdapterState)
      (config_text : String) (st : ParserState),
      ((a.valid && a.libLoaded) = false →
        WireguardAdapter.ApplyConfiguration szInterface szPeer szAllowedIP env a
            config_text
          = (false, a)) ∧
      ((a.valid && a.libLoaded) = true →
        WireguardConfigParser.Parse env.parseEnv config_text clearedState = (false, st) →
        WireguardAdapter.ApplyConfiguration szInterface szPeer szAllowedIP env a
            config_text
          = (false, { a with parsed_config := none })) ∧
      ((a.valid && a.libLoaded) = true →
        WireguardConfigParser.Parse env.parseEnv config_text clearedState = (true, st) →
        WireguardConfigParser.CalculateConfigurationSize szInterface szPeer szAllowedIP
            st.peers_ = 0 →
        WireguardAdapter.ApplyConfiguration szInterface szPeer szAllowedIP env a
            config_text
          = (false, { a with parsed_config := none })) ∧
      ((a.valid && a.libLoaded) = true →
        WireguardConfigParser.Parse env.parseEnv config_text clearedState = (true, st) →
        WireguardConfigParser.CalculateConfigurationSize szInterface szPeer szAllowedIP
            st.peers_ ≠ 0 →
        env.setConfigurationOk = false →
        WireguardAdapter.ApplyConfiguration szInterface szPeer szAllowedIP env a
            config_text
          = (false, { a with parsed_config := none })) ∧
      ((a.valid && a.libLoaded) = true →
        WireguardConfigParser.Parse env.parseEnv config_text clearedState = (true, st) →
        WireguardConfigParser.CalculateConfigurationSize szInterface szPeer szAllowedIP
            st.peers_ ≠ 0 →
        env.setConfigurationOk = true →
        env.setStateUpOk = false →
        WireguardAdapter.ApplyConfiguration szInterface szPeer szAllowedIP env a
            config_text
          = (false, { a with parsed_config := some st })) ∧
      ((a.valid && a.libLoaded) = true →
        WireguardConfigParser.Parse env.parseEnv config_text clearedState = (true, st) →
        WireguardConfigParser.CalculateConfigurationSize szInterface szPeer szAllowedIP
            st.peers_ ≠ 0 →
        env.setConfigurationOk = true →
        env.setStateUpOk = true →
        WireguardAdapter.ApplyConfiguration szInterface szPeer szAllowedIP env a
            config_text
          = (true, { a with parsed_config := some st })) := by
  intro szInterface szPeer szAllowedIP env a config_text st
  refine ⟨?_, ?_, ?_, ?_, ?_, ?_⟩
  · intro hv
    unfold WireguardAdapter.ApplyConfiguration
    simp [hv]
  · intro hv hp
    unfold WireguardAdapter.ApplyConfiguration
    simp [hv, hp]
  · intro hv hp hsz
    unfold WireguardAdapter.ApplyConfiguration
    simp [hv, hp, hsz]
  · intro hv hp hsz hcfg
    unfold WireguardAdapter.ApplyConfiguration
    simp [hv, hp, hsz, build_at_required, WireguardAdapter.SetConfiguration, hcfg]
  · intro hv hp hsz hcfg hst
    unfold WireguardAdapter.ApplyConfiguration
    simp [hv, hp, hsz, build_at_required, WireguardAdapter.SetConfiguration,
      WireguardAdapter.SetStateUp, hcfg, hst]
  · intro hv hp hsz hcfg hst
    unfold WireguardAdapter.ApplyConfiguration
    simp [hv, hp, hsz, build_at_required, WireguardAdapter.SetConfiguration,
      WireguardAdapter.SetStateUp, hcfg, hst]

/-- Claim C3 witness: applies the all-stages-succeed clause of
claim_C3_amended at the empty document on a valid adapter with a fully
cooperative driver, discharging every hypothesis by evaluation. -/
theorem claim_C3_witness :
    WireguardAdapter.ApplyConfiguration 80 136 24 ⟨trivialParseEnv, true, true⟩
        ⟨true, true, none⟩ ""
      = (true, { valid := true, libLoaded := true, parsed_config := some clearedState }) := by
  exact (claim_C3_amended 80 136 24 ⟨trivialParseEnv, true, true⟩ ⟨true, true, none⟩
      "" clearedState).2.2.2.2.2 rfl rfl (by decide) rfl rfl

/-- Claim C4 counterexample: the document "[Interface]\nListenPort = 70000"
carries a ListenPort outside the unsigned 16-bit range, yet Parse succeeds
and stores the value truncated to 70000 mod 65536 = 4464 — the value is
truncated by the WORD cast instead of being rejected. -/
theorem claim_C4_counterexample :
    (WireguardConfigParser.Parse trivialParseEnv "[Interface]\nListenPort = 70000"
        clearedState).1 = true ∧
    (WireguardConfigParser.Parse trivialParseEnv "[Interface]\nListenPort = 70000"
        clearedState).2.interface_.listen_port = 4464 ∧
    (WireguardConfigParser.Parse trivialParseEnv "[Interface]\nListenPort = 70000"
        clearedState).2.interface_.has_listen_port = true := by
  refine ⟨rfl, rfl, rfl⟩

/-- splitFirst cuts at the first occurrence: on a list with no earlier
occurrence of the character, it returns the prefix and suffix around it. -/
lemma splitFirst_append_cons (c : Char) (l₂ : List Char) :
    ∀ l₁ : List Char, c ∉ l₁ →
      splitFirst c (l₁ ++ c :: l₂) = some (l₁, l₂) := by
  intro l₁
  induction l₁ with
  | nil => intro _; simp [splitFirst]
  | cons x t ih =>
    intro h
    have hx : ¬(x = c) := fun hxc => h (by rw [hxc]; exact List.mem_cons_self c t)
    have ht : c ∉ t := fun hct => h (List.mem_cons_of_mem x hct)
    simp [splitFirst, hx, ih ht]

/-- splitLast cuts at the last occurrence: when the character does not occur
in the suffix, splitting the joined list recovers prefix and suffix. -/
lemma splitLast_append (c : Char) (l₁ l₂ : List Char) (h : c ∉ l₂) :
    splitLast c (l₁ ++ c :: l₂) = some (l₁, l₂) := by
  unfold splitLast
  have hrev : (l₁ ++ c :: l₂).reverse = l₂.reverse ++ c :: l₁.reverse := by
    simp [List.reverse_append]
  rw [hrev, splitFirst_append_cons c l₁.reverse l₂.reverse (by simpa using h)]
  simp

/-- Claim C4 amended: the numeric fields are parsed with std::stoul wrapped
in try/catch and then narrowed by a WORD cast.  A value whose stoul parse
throws (no digits, or magnitude beyond the 32-bit unsigned long range) is
rejected and the key fails; but a value stoul accepts is stored reduced
modulo 2^16 rather than rejected — so every numeric value within 0–65535 is
accepted and stored unchanged (since v mod 65536 = v there), while larger
accepted values (such as 70000) are silently truncated, for ListenPort,
PersistentKeepalive, and the port of Endpoint alike. -/
theorem claim_C4_amended :
    (∀ (env : ParseEnv) (value : List Char) (iface : ParsedInterface),
      stoul value = none →
      WireguardConfigParser.ParseKeyValueIface env ("ListenPort".data) value iface
        = (false, iface)) ∧
    (∀ (env : ParseEnv) (value : List Char) (iface : ParsedInterface) (v : Nat),
      stoul value = some v →
      WireguardConfigParser.ParseKeyValueIface env ("ListenPort".data) value iface
        = (true, { iface with listen_port := v % 65536, has_listen_port := true })) ∧
    (∀ (env : ParseEnv) (value : List Char) (peer : ParsedPeer),
      stoul value = none →
      WireguardConfigParser.ParseKeyValuePeer env ("PersistentKeepalive".data) value peer
        = (false, peer)) ∧
    (∀ (env : ParseEnv) (value : List Char) (peer : ParsedPeer) (v : Nat),
      stoul value = some v →
      WireguardConfigParser.ParseKeyValuePeer env ("PersistentKeepalive".data) value peer
        = (true,
            { peer with
                persistent_keepalive := v % 65536, has_persistent_keepalive := true })) ∧
    (∀ (env : ParseEnv) (ip port_str : List Char) (v : Nat) (bytes : List Nat),
      stoul port_str = some v →
      env.inetPton4 ip = some bytes →
      ip.head? ≠ some '[' →
      ':' ∉ port_str →
      WireguardConfigParser.ParseEndpoint env (ip ++ ':' :: port_str)
        = some ⟨AF_INET, bytes, v % 65536⟩) ∧
    (∀ v : Nat, v ≤ 65535 → v % 65536 = v) := by
  refine ⟨?_, ?_, ?_, ?_, ?_, ?_⟩
  · intro env value iface h
    unfold WireguardConfigParser.ParseKeyValueIface
    rw [if_neg (by decide), if_neg (by decide), if_pos rfl, h]
  · intro env value iface v h
    unfold WireguardConfigParser.ParseKeyValueIface
    rw [if_neg (by decide), if_neg (by decide), if_pos rfl, h]
  · intro env value peer h
    unfold WireguardConfigParser.ParseKeyValuePeer
    rw [if_neg (by decide), if_neg (by decide), if_pos rfl, h]
  · intro env value peer v h
    unfold WireguardConfigParser.ParseKeyValuePeer
    rw [if_neg (by decide), if_neg (by decide), if_pos rfl, h]
  · intro env ip port_str v bytes hport h4 hip hmem
    unfold WireguardConfigParser.ParseEndpoint
    have hne : (ip ++ ':' :: port_str).isEmpty = false := by cases ip <;> rfl
    have hh : ¬((ip ++ ':' :: port_str).head? = some '[') := by
      cases ip with
      | nil => simp
      | cons x t => simpa using hip
    rw [if_neg (by simp [hne])]
    rw [if_neg hh, splitLast_append ':' ip port_str hmem]
    simp only [hport, h4]
  · intro v hv
    omega

/-- Claim C4 witness: applies the accepted-value clause of claim_C4_amended
to the out-of-range value 70000, whose stoul parse is discharged by
evaluation; the stored port is the truncation 4464. -/
theorem claim_C4_witness :
    WireguardConfigParser.ParseKeyValueIface trivialParseEnv ("ListenPort".data)
        ("70000".data) {}
      = (true, { listen_port := 4464, has_listen_port := true }) := by
  have h := claim_C4_amended.2.1 trivialParseEnv ("70000".data) {} 70000 rfl
  exact h.trans (by decide)

end WgDart
